import Mathlib

/-
Shallow embedding of the aurelio-dictionary-ia core
(src/core/confidence_module.py and src/core/dictionary_manager.py).

Modelling conventions:
- Python str is Lean String; str.lower()/str.strip()/str.split() are modelled
  over the ASCII whitespace and letter ranges (pyLower, pyStrip, pyWordCount).
- Python float arithmetic in ConfidenceModule is modelled with rationals: the
  default multipliers 2.0 and 1.5 and the cap 100.0 give products that are
  exactly representable in binary floating point for every word count that
  matters (the cap clamps everything at 100), so the rational model agrees
  with the float computation on all inputs.
- Python dicts (insertion-ordered, string-keyed) are association lists; dict
  assignment replaces in place or appends, matching CPython semantics.
- File-system and network effects are modelled explicitly: the entry fetcher
  is an Option Entry parameter, and operation results record whether the
  fetcher, save_data and export_dictionary_to_csv were invoked.
- The CSV layer is modelled at the record level (a file is a list of rows,
  each a list of string fields); Python's csv writer/reader round-trips
  string fields faithfully, and csv.DictReader semantics (header row, blank
  row skipping, restval None for short rows) are reproduced in dictReaderRows.
-/

/-! String helpers modelling Python str methods -/

def pyIsSpace (c : Char) : Bool :=
  c == ' ' || c == '\t' || c == '\n' || c == '\r' || c == '\x0b' || c == '\x0c'

def toLowerChar (c : Char) : Char :=
  if 'A' ≤ c ∧ c ≤ 'Z' then Char.ofNat (c.toNat + 32) else c

/-- Model of Python str.lower (ASCII range). -/
def pyLower (s : String) : String :=
  ⟨s.data.map toLowerChar⟩

def stripList (l : List Char) : List Char :=
  ((l.dropWhile pyIsSpace).reverse.dropWhile pyIsSpace).reverse

/-- Model of Python str.strip(): remove leading and trailing whitespace. -/
def pyStrip (s : String) : String :=
  ⟨stripList s.data⟩

/-- Normalisation applied to word arguments in the manager:
word.lower().strip(). -/
def pyNorm (s : String) : String :=
  pyStrip (pyLower s)

def wordCountAux : List Char → Bool → Nat
  | [], _ => 0
  | c :: rest, inWord =>
      if pyIsSpace c then wordCountAux rest false
      else (if inWord then 0 else 1) + wordCountAux rest true

/-- Model of len(s.split()): the number of maximal non-whitespace runs. -/
def pyWordCount (s : String) : Nat :=
  wordCountAux s.data false

/-- Python truthiness of an Optional[str]: None and the empty string are
falsy, every other string is truthy. -/
def pyTruthy (o : Option String) : Bool :=
  match o with
  | none => false
  | some s => s ≠ ""

/-! ConfidenceModule (src/core/confidence_module.py) -/

structure ConfidenceModule where
  high_multiplier : ℚ
  partial_multiplier : ℚ
  max_confidence : ℚ
deriving Repr, DecidableEq

def defaultConfidenceModule : ConfidenceModule :=
  { high_multiplier := 2, partial_multiplier := 3/2, max_confidence := 100 }

/-- Python min(a, b) on two numbers: the first argument when they are equal.
Written with an explicit comparison so that it evaluates by kernel
reduction. -/
def pymin (a b : ℚ) : ℚ :=
  if a ≤ b then a else b

/-- Embedding of ConfidenceModule.calculate_confidence for string-or-None
inputs (non-string inputs are stringified by the source before this logic
runs; they are outside the claims). Branch selection uses Python truthiness
of the raw strings, exactly as the source does. -/
def calculate_confidence (m : ConfidenceModule) (definition example_str : Option String) : ℚ :=
  let d := definition.getD ""
  let e := example_str.getD ""
  let definition_word_count := pyWordCount d
  let example_word_count := pyWordCount e
  let total_word_count := definition_word_count + example_word_count
  if d ≠ "" ∧ e ≠ "" then
    pymin m.max_confidence ((total_word_count : ℚ) * m.high_multiplier)
  else if d ≠ "" ∨ e ≠ "" then
    pymin m.max_confidence
      (((if d ≠ "" then definition_word_count else example_word_count) : ℚ) * m.partial_multiplier)
  else 0

/-- Spec-side definition, following the words of claim C1: branch selection
treats whitespace-only strings as empty (emptiness after trimming). -/
def confidence_claim_spec (m : ConfidenceModule) (d e : String) : ℚ :=
  if pyStrip d ≠ "" ∧ pyStrip e ≠ "" then
    pymin m.max_confidence (((pyWordCount d + pyWordCount e : Nat) : ℚ) * m.high_multiplier)
  else if pyStrip d ≠ "" then
    pymin m.max_confidence ((pyWordCount d : ℚ) * m.partial_multiplier)
  else if pyStrip e ≠ "" then
    pymin m.max_confidence ((pyWordCount e : ℚ) * m.partial_multiplier)
  else 0

/-- Spec-side definition for the amended claim C1: same formulas, but branch
selection uses raw (untrimmed) non-emptiness, as the source does. -/
def confidence_amended_spec (m : ConfidenceModule) (d e : String) : ℚ :=
  if d ≠ "" ∧ e ≠ "" then
    pymin m.max_confidence (((pyWordCount d + pyWordCount e : Nat) : ℚ) * m.high_multiplier)
  else if d ≠ "" then
    pymin m.max_confidence ((pyWordCount d : ℚ) * m.partial_multiplier)
  else if e ≠ "" then
    pymin m.max_confidence ((pyWordCount e : ℚ) * m.partial_multiplier)
  else 0

/-! Dictionary data model (src/core/dictionary_manager.py) -/

/-- One record of the lexicon: dictionary[language][word]. -/
structure Entry where
  definition : String
  part_of_speech : String
  example_str : String
deriving Repr, DecidableEq

/-- A language bucket: a Python dict word -> Entry, as an insertion-ordered
association list. -/
abbrev Bucket := List (String × Entry)

/-- The whole in-memory dictionary: language -> Bucket. -/
abbrev Dict := List (String × Bucket)

/-- Lookup in a Python dict modelled as an association list. -/
def alookup : List (String × α) → String → Option α
  | [], _ => none
  | (k, v) :: rest, key => if k = key then some v else alookup rest key

/-- Python dict assignment d[key] = v: replace in place if the key exists,
append otherwise. -/
def aset : List (String × α) → String → α → List (String × α)
  | [], key, v => [(key, v)]
  | (k, w) :: rest, key, v =>
      if k = key then (k, v) :: rest else (k, w) :: aset rest key v

/-- Python del d[key] (no-op when absent; the source only deletes present
keys). -/
def aerase : List (String × α) → String → List (String × α)
  | [], _ => []
  | (k, w) :: rest, key => if k = key then rest else (k, w) :: aerase rest key

/-- The entry stored for a word under a language key, if any. -/
def entryAt (d : Dict) (lang w : String) : Option Entry :=
  (alookup d lang).bind (fun b => alookup b w)

/-- The bucket-creation step shared by add_word, manual_add_word and the
CSV import loop: if language not in self.dictionary, then
self.dictionary[language] becomes an empty dict. -/
def setdefaultLang (st : Dict) (lang : String) : Dict :=
  if (alookup st lang).isNone then aset st lang [] else st

/-- Result of a mutating manager operation, with the effects the source
performs recorded as booleans. -/
structure OpResult where
  success : Bool
  message : String
  dict : Dict
  fetchCalled : Bool
  saveCalled : Bool
  exportCalled : Bool
deriving Repr, DecidableEq

/-- Embedding of DictionaryManager.add_word. The entry fetcher
(fetch_definition_from_api) is modelled by the fetched argument: the record
it would return, or none. The word is normalised (word.lower().strip());
the language argument is used verbatim as the bucket key. -/
def add_word (fetched : Option Entry) (st : Dict) (word language : String)
    (definition part_of_speech example_str : Option String) : OpResult :=
  let w := pyNorm word
  if w = "" then
    ⟨false, "A palavra não pode estar vazia.", st, false, false, false⟩
  else
    let st1 := setdefaultLang st language
    let bucket := (alookup st1 language).getD []
    if (alookup bucket w).isSome then
      ⟨false, "Palavra já existe no dicionário.", st1, false, false, false⟩
    else if pyTruthy definition && pyTruthy part_of_speech && pyTruthy example_str then
      ⟨true, "Palavra adicionada com sucesso.",
        aset st1 language (aset bucket w
          ⟨pyStrip (definition.getD ""), pyStrip (part_of_speech.getD ""),
           pyStrip (example_str.getD "")⟩),
        false, true, true⟩
    else
      match fetched with
      | some rec =>
          ⟨true, "Palavra adicionada com sucesso.",
            aset st1 language (aset bucket w
              ⟨pyStrip rec.definition, pyStrip rec.part_of_speech,
               pyStrip rec.example_str⟩),
            true, true, true⟩
      | none =>
          ⟨false, "Definição e exemplo não encontrados na API. Por favor, forneça manualmente.",
            st1, true, false, false⟩

/-- Embedding of DictionaryManager.manual_add_word. All three fields are
required to be truthy (non-empty); no fetch fallback. -/
def manual_add_word (st : Dict) (word language definition part_of_speech example_str : String) :
    OpResult :=
  let w := pyNorm word
  if w = "" then
    ⟨false, "A palavra não pode estar vazia.", st, false, false, false⟩
  else
    let st1 := setdefaultLang st language
    let bucket := (alookup st1 language).getD []
    if (alookup bucket w).isSome then
      ⟨false, "Palavra já existe no dicionário.", st1, false, false, false⟩
    else if definition = "" ∨ part_of_speech = "" ∨ example_str = "" then
      ⟨false, "Definição, classe gramatical e exemplo são obrigatórios.", st1, false, false, false⟩
    else
      ⟨true, "Palavra adicionada com sucesso.",
        aset st1 language (aset bucket w
          ⟨pyStrip definition, pyStrip part_of_speech, pyStrip example_str⟩),
        false, true, true⟩

/-- Embedding of DictionaryManager.get_definition: pure lookup; the word is
normalised, the language argument is used verbatim. -/
def get_definition (st : Dict) (word language : String) : Option Entry :=
  entryAt st language (pyNorm word)

/-- Embedding of DictionaryManager.set_language: succeeds when the
normalised code is registered in language_data. -/
def set_language (language_data : List (String × String)) (language : String) : Bool :=
  (alookup language_data (pyNorm language)).isSome

/-- Embedding of DictionaryManager.remove_word: the word is normalised, the
language argument is used verbatim. -/
def remove_word (st : Dict) (word language : String) : OpResult :=
  let w := pyNorm word
  match alookup st language with
  | some b =>
      if (alookup b w).isSome then
        ⟨true, "Palavra removida com sucesso.", aset st language (aerase b w), false, true, true⟩
      else
        ⟨false, "Palavra não encontrada no dicionário.", st, false, false, false⟩
  | none => ⟨false, "Palavra não encontrada no dicionário.", st, false, false, false⟩

def insertSorted (s : String) : List String → List String
  | [] => [s]
  | t :: rest => if t < s then t :: insertSorted s rest else s :: t :: rest

/-- Model of Python sorted() on a list of strings. -/
def sortStrings (l : List String) : List String :=
  l.foldr insertSorted []

/-- Embedding of DictionaryManager.list_words: the language is normalised
here (language.lower().strip()). -/
def list_words (st : Dict) (language : String) : Option (List String) :=
  (alookup st (pyNorm language)).map (fun b => sortStrings (b.map Prod.fst))

/-- The fixed CSV header written by export_dictionary_to_csv and read back by
the DictReader during import. -/
def csvHeader : List String :=
  ["word", "definition", "part_of_speech", "example"]

/-- The records export_dictionary_to_csv writes for one bucket: the header
row, then one row per word in insertion order. -/
def export_rows (b : Bucket) : List (List String) :=
  csvHeader :: b.map (fun p => [p.1, p.2.definition, p.2.part_of_speech, p.2.example_str])

/-- Embedding of DictionaryManager.export_dictionary_to_csv: the language is
normalised; a missing language aborts (returns none, i.e. False with no file
written); otherwise the produced file content is returned. -/
def export_dictionary_to_csv (st : Dict) (language : String) : Option (List (List String)) :=
  (alookup st (pyNorm language)).map export_rows

/-! CSV DictReader model and import_dictionary_from_csv -/

/-- A row produced by csv.DictReader: fieldname -> (string value, or the
restval None used to fill short rows). -/
abbrev CsvRow := List (String × Option String)

def makeRowAux : List String → List String → CsvRow → CsvRow
  | [], _, acc => acc
  | h :: hs, [], acc => makeRowAux hs [] (aset acc h none)
  | h :: hs, r :: rs, acc => makeRowAux hs rs (aset acc h (some r))

/-- dict(zip(fieldnames, row)) plus restval-None filling for rows shorter
than the header (extra values beyond the header go under the restkey None
and are invisible to row.get with string keys). -/
def makeRow (header record : List String) : CsvRow :=
  makeRowAux header record []

/-- Python row.get(key, ""): the default "" when the key is absent, and the
stored value otherwise — which is none exactly when the CSV row was shorter
than the header and the slot holds the restval None. -/
def rowGet (r : CsvRow) (k : String) : Option String :=
  match alookup r k with
  | none => some ""
  | some v => v

/-- The rows csv.DictReader yields for a file: the first record is the
header; blank records are skipped. -/
def dictReaderRows (file : List (List String)) : List CsvRow :=
  match file with
  | [] => []
  | header :: rest => (rest.filter (fun r => !r.isEmpty)).map (makeRow header)

/-- One iteration of the import loop. Returns none when the Python body
raises AttributeError, which happens exactly when one of the four row.get
calls returns the restval None (NoneType has no .lower()/.strip()). The
bucket key is language.lower() — lowered but NOT stripped, unlike the word.
Written without let-bindings; the shared subterms correspond to the local
variables word/definition/part_of_speech/example and language_dict of the
source. -/
def import_row (language : String) (acc : Dict × Nat × Nat) (row : CsvRow) :
    Option (Dict × Nat × Nat) :=
  match rowGet row "word", rowGet row "definition",
        rowGet row "part_of_speech", rowGet row "example" with
  | some w0, some d0, some p0, some e0 =>
      if pyStrip (pyLower w0) = "" ∨ pyStrip d0 = "" ∨ pyStrip p0 = "" then
        some (acc.1, acc.2.1, acc.2.2 + 1)
      else if (alookup ((alookup (setdefaultLang acc.1 (pyLower language)) (pyLower language)).getD [])
                 (pyStrip (pyLower w0))).isNone then
        some (aset (setdefaultLang acc.1 (pyLower language)) (pyLower language)
                (aset ((alookup (setdefaultLang acc.1 (pyLower language)) (pyLower language)).getD [])
                  (pyStrip (pyLower w0)) ⟨pyStrip d0, pyStrip p0, pyStrip e0⟩),
              acc.2.1 + 1, acc.2.2)
      else
        some (setdefaultLang acc.1 (pyLower language), acc.2.1, acc.2.2 + 1)
  | _, _, _, _ => none

/-- The import loop over the reader rows: on an exception the state mutated
so far is kept (the loop works on the live dictionary) and the flag is
false. -/
def importLoop (language : String) : List CsvRow → Dict × Nat × Nat →
    (Dict × Nat × Nat) × Bool
  | [], acc => (acc, true)
  | row :: rest, acc =>
      match import_row language acc row with
      | some acc1 => importLoop language rest acc1
      | none => (acc, false)

/-- Result of import_dictionary_from_csv, with the number of save_data and
export_dictionary_to_csv invocations recorded. -/
structure ImportResult where
  success : Bool
  message : String
  dict : Dict
  saveCalls : Nat
  exportCalls : Nat
deriving Repr, DecidableEq

/-- Embedding of DictionaryManager.import_dictionary_from_csv. The file is
modelled as its list of CSV records; fileExists models os.path.exists. On a
clean run the store is persisted once and the CSV mirror regenerated once,
after all rows. -/
def import_dictionary_from_csv (st : Dict) (fileExists : Bool)
    (file : List (List String)) (language : String) : ImportResult :=
  if ¬ fileExists then
    ⟨false, "Arquivo CSV não encontrado.", st, 0, 0⟩
  else
    match importLoop language (dictReaderRows file) (st, 0, 0) with
    | ((st1, added, skipped), true) =>
        ⟨true,
          "Dicionário importado com sucesso. " ++ toString added ++
            " palavras adicionadas, " ++ toString skipped ++ " palavras ignoradas.",
          st1, 1, 1⟩
    | ((st1, _, _), false) =>
        ⟨false, "Erro ao importar dicionário: AttributeError", st1, 0, 0⟩

/-! Persistence: load_data and save_data -/

/-- The language registry file content (metadata blob per code; its precise
shape is irrelevant to the claims). -/
abbrev LangData := List (String × String)

/-- A backing file as seen by load_data: missing (none), present but
malformed (some none), or well-formed with parsed content. -/
abbrev parseOutcome (α : Type) : Type := Option (Option α)

/-- Embedding of DictionaryManager.load_data: a single try block reads and
parses both files; on any FileNotFoundError/JSONDecodeError/other exception
the except clause assigns empty structures to BOTH self.dictionary and
self.language_data. It never propagates an exception. -/
def load_data (dictFile : parseOutcome Dict) (langFile : parseOutcome LangData) :
    Dict × LangData :=
  match dictFile, langFile with
  | some (some d), some (some l) => (d, l)
  | _, _ => ([], [])

/-- Environment oracle for save_data: which backing files exist (shutil.copy
raises FileNotFoundError on a missing source), whether the two json.dump
writes succeed (disk/permissions), and whether the two post-save
validate_json re-parses succeed. -/
structure SaveEnv where
  dictFileExists : Bool
  langFileExists : Bool
  writeDictOk : Bool
  writeLangOk : Bool
  validateDictOk : Bool
  validateLangOk : Bool
deriving Repr, DecidableEq

/-- Embedding of DictionaryManager.save_data: backup copies of both backing
files are attempted unconditionally, then both files are written, then both
are re-validated; any exception is caught and turned into a False result.
The in-memory pair (dictionary, language_data) is never assigned, so it is
returned untouched. -/
def save_data (env : SaveEnv) (mem : Dict × LangData) : Bool × (Dict × LangData) :=
  let ok :=
    if ¬ env.dictFileExists then false
    else if ¬ env.langFileExists then false
    else if ¬ env.writeDictOk then false
    else if ¬ env.writeLangOk then false
    else env.validateDictOk && env.validateLangOk
  (ok, mem)

/-! Association-list lemmas -/

theorem alookup_aset_self {α : Type} (l : List (String × α)) (k : String) (v : α) :
    alookup (aset l k v) k = some v := by
  induction l with
  | nil => simp [aset, alookup]
  | cons p rest ih =>
      by_cases h : p.1 = k
      · simp [aset, h, alookup]
      · simp [aset, h, alookup, ih]

theorem alookup_aset_ne {α : Type} (l : List (String × α)) {k k' : String} (v : α)
    (h : k' ≠ k) : alookup (aset l k v) k' = alookup l k' := by
  have h2 : ¬ (k = k') := fun hh => h hh.symm
  induction l with
  | nil => simp [aset, alookup, h2]
  | cons p rest ih =>
      by_cases hp : p.1 = k
      · subst hp
        have h3 : ¬ (p.1 = k') := h2
        simp [aset, alookup, h3]
      · simp only [aset, if_neg hp]
        by_cases hk : p.1 = k'
        · simp [alookup, hk]
        · simp [alookup, hk, ih]

theorem aset_eq_append {α : Type} {l : List (String × α)} {k : String}
    (h : alookup l k = none) (v : α) : aset l k v = l ++ [(k, v)] := by
  induction l with
  | nil => simp [aset]
  | cons p rest ih =>
      by_cases hp : p.1 = k
      · simp [alookup, hp] at h
      · simp only [alookup, if_neg hp] at h
        simp [aset, hp, ih h]

theorem alookup_append_some {α : Type} {l : List (String × α)} {k : String} {v : α}
    (l2 : List (String × α)) (h : alookup l k = some v) :
    alookup (l ++ l2) k = some v := by
  induction l with
  | nil => simp [alookup] at h
  | cons p rest ih =>
      by_cases hp : p.1 = k
      · simp only [alookup, if_pos hp] at h
        simp [alookup, hp, h]
      · simp only [alookup, if_neg hp] at h
        simp [alookup, hp, ih h]

theorem alookup_eq_none_of_not_mem {α : Type} {l : List (String × α)} {k : String}
    (h : k ∉ l.map Prod.fst) : alookup l k = none := by
  induction l with
  | nil => simp [alookup]
  | cons p rest ih =>
      simp only [List.map_cons, List.mem_cons] at h
      push_neg at h
      have hp : p.1 ≠ k := fun hh => h.1 hh.symm
      simp [alookup, hp, ih h.2]

theorem entryAt_eq_bucket_lookup (st : Dict) (k w : String) :
    entryAt st k w = alookup ((alookup st k).getD []) w := by
  cases h : alookup st k with
  | none => simp [entryAt, h, alookup]
  | some b => simp [entryAt, h]

theorem alookup_setdefaultLang_self (st : Dict) (k : String) :
    alookup (setdefaultLang st k) k = some ((alookup st k).getD []) := by
  unfold setdefaultLang
  cases h : alookup st k with
  | none => simp [h, alookup_aset_self]
  | some b => simp [h]

theorem alookup_setdefaultLang_ne (st : Dict) {k L : String} (h : L ≠ k) :
    alookup (setdefaultLang st k) L = alookup st L := by
  unfold setdefaultLang
  cases hk : alookup st k with
  | none => simp [hk, alookup_aset_ne _ _ h]
  | some b => simp [hk]

theorem entryAt_setdefaultLang (st : Dict) (k L W : String) :
    entryAt (setdefaultLang st k) L W = entryAt st L W := by
  by_cases h : L = k
  · subst h
    rw [entryAt_eq_bucket_lookup, entryAt_eq_bucket_lookup, alookup_setdefaultLang_self]
    cases hk : alookup st L with
    | none => simp [hk]
    | some b => simp [hk]
  · unfold entryAt
    rw [alookup_setdefaultLang_ne st h]

/-! CSV row and import-loop lemmas -/

theorem rowGet_canonical_word (a b c d : String) :
    rowGet (makeRow csvHeader [a, b, c, d]) "word" = some a := rfl

theorem rowGet_canonical_definition (a b c d : String) :
    rowGet (makeRow csvHeader [a, b, c, d]) "definition" = some b := rfl

theorem rowGet_canonical_pos (a b c d : String) :
    rowGet (makeRow csvHeader [a, b, c, d]) "part_of_speech" = some c := rfl

theorem rowGet_canonical_example (a b c d : String) :
    rowGet (makeRow csvHeader [a, b, c, d]) "example" = some d := rfl

theorem dictReaderRows_cons (header : List String) (rest : List (List String)) :
    dictReaderRows (header :: rest) = (rest.filter (fun r => !r.isEmpty)).map (makeRow header) :=
  rfl

theorem dictReaderRows_export (b : Bucket) :
    dictReaderRows (export_rows b) =
      b.map (fun p => makeRow csvHeader [p.1, p.2.definition, p.2.part_of_speech, p.2.example_str]) := by
  unfold export_rows
  rw [dictReaderRows_cons, List.filter_eq_self.mpr, List.map_map]
  · rfl
  · intro r hr
    simp only [List.mem_map] at hr
    obtain ⟨p, _, rfl⟩ := hr
    simp

theorem import_row_insert (language : String) (acc : Bucket) (a s : Nat) (p : String × Entry)
    (hw0 : p.1 ≠ "") (hwn : pyStrip (pyLower p.1) = p.1)
    (hd : pyStrip p.2.definition = p.2.definition) (hdne : p.2.definition ≠ "")
    (hp : pyStrip p.2.part_of_speech = p.2.part_of_speech) (hpne : p.2.part_of_speech ≠ "")
    (he : pyStrip p.2.example_str = p.2.example_str)
    (hnotmem : alookup acc p.1 = none) :
    import_row language ([(pyLower language, acc)], a, s)
        (makeRow csvHeader [p.1, p.2.definition, p.2.part_of_speech, p.2.example_str])
      = some ([(pyLower language, acc ++ [(p.1, p.2)])], a + 1, s) := by
  have hK : setdefaultLang [(pyLower language, acc)] (pyLower language)
      = [(pyLower language, acc)] := by
    simp [setdefaultLang, alookup]
  have hacc : alookup [(pyLower language, acc)] (pyLower language) = some acc := by
    simp [alookup]
  have heta : (⟨p.2.definition, p.2.part_of_speech, p.2.example_str⟩ : Entry) = p.2 := rfl
  unfold import_row
  rw [rowGet_canonical_word, rowGet_canonical_definition, rowGet_canonical_pos,
    rowGet_canonical_example]
  dsimp only
  rw [hwn, hd, hp, he, heta]
  rw [if_neg (by simp [hw0, hdne, hpne])]
  rw [hK, hacc]
  simp only [Option.getD_some, hnotmem, Option.isNone_none, if_true]
  rw [aset_eq_append hnotmem p.2]
  simp [aset]

theorem importLoop_roundtrip (language : String) :
    ∀ (bs acc : Bucket) (a s : Nat),
      (((acc ++ bs).map Prod.fst).Nodup) →
      (∀ p ∈ bs, p.1 ≠ "" ∧ pyStrip (pyLower p.1) = p.1 ∧
         pyStrip p.2.definition = p.2.definition ∧ p.2.definition ≠ "" ∧
         pyStrip p.2.part_of_speech = p.2.part_of_speech ∧ p.2.part_of_speech ≠ "" ∧
         pyStrip p.2.example_str = p.2.example_str) →
      importLoop language
          (bs.map (fun p => makeRow csvHeader [p.1, p.2.definition, p.2.part_of_speech, p.2.example_str]))
          ([(pyLower language, acc)], a, s)
        = (([(pyLower language, acc ++ bs)], a + bs.length, s), true) := by
  intro bs
  induction bs with
  | nil =>
      intro acc a s _ _
      simp [importLoop]
  | cons p rest ih =>
      intro acc a s hnd hwf
      obtain ⟨hw0, hwn, hd, hdne, hp, hpne, he⟩ := hwf p (by simp)
      have hnotmem : alookup acc p.1 = none := by
        apply alookup_eq_none_of_not_mem
        rw [List.map_append] at hnd
        have hdisj := (List.nodup_append.mp hnd).2.2
        intro hmem
        exact hdisj hmem (by simp)
      have hstep := import_row_insert language acc a s p hw0 hwn hd hdne hp hpne he hnotmem
      simp only [List.map_cons, importLoop, hstep]
      have hnd2 : (((acc ++ [p]) ++ rest).map Prod.fst).Nodup := by
        rw [List.append_assoc, List.singleton_append]
        exact hnd
      have hrec := ih (acc ++ [p]) (a + 1) s hnd2 (fun q hq => hwf q (by simp [hq]))
      rw [hrec, List.append_assoc, List.singleton_append]
      have harith : a + 1 + rest.length = a + (rest.length + 1) := by omega
      simp [harith]

theorem importLoop_all_skipped (language : String) :
    ∀ (rows : List CsvRow) (st : Dict) (a s : Nat),
      (∀ row ∈ rows,
        (rowGet row "word").isSome ∧ (rowGet row "definition").isSome ∧
        (rowGet row "part_of_speech").isSome ∧ (rowGet row "example").isSome ∧
        (pyStrip (pyLower ((rowGet row "word").getD "")) = "" ∨
         pyStrip ((rowGet row "definition").getD "") = "" ∨
         pyStrip ((rowGet row "part_of_speech").getD "") = "")) →
      importLoop language rows (st, a, s) = ((st, a, s + rows.length), true) := by
  intro rows
  induction rows with
  | nil =>
      intro st a s _
      simp [importLoop]
  | cons row rest ih =>
      intro st a s hws
      obtain ⟨hw, hd, hp, he, hskip⟩ := hws row (by simp)
      obtain ⟨w0, hw0⟩ := Option.isSome_iff_exists.mp hw
      obtain ⟨d0, hd0⟩ := Option.isSome_iff_exists.mp hd
      obtain ⟨p0, hp0⟩ := Option.isSome_iff_exists.mp hp
      obtain ⟨e0, he0⟩ := Option.isSome_iff_exists.mp he
      rw [hw0, hd0, hp0] at hskip
      simp only [Option.getD_some] at hskip
      have hstep : import_row language (st, a, s) row = some (st, a, s + 1) := by
        unfold import_row
        rw [hw0, hd0, hp0, he0]
        dsimp only
        rw [if_pos hskip]
      simp only [importLoop, hstep]
      have hrec := ih st a (s + 1) (fun q hq => hws q (by simp [hq]))
      rw [hrec]
      have harith : s + 1 + rest.length = s + (rest.length + 1) := by omega
      simp [harith]

theorem import_row_preserves {language : String} {st st1 : Dict} {a s a1 s1 : Nat}
    {row : CsvRow} {L W : String} {E : Entry}
    (h : import_row language (st, a, s) row = some (st1, a1, s1))
    (hE : entryAt st L W = some E) : entryAt st1 L W = some E := by
  unfold import_row at h
  cases hw : rowGet row "word" with
  | none => rw [hw] at h; exact absurd h (by simp)
  | some w0 =>
  cases hd : rowGet row "definition" with
  | none => rw [hw, hd] at h; exact absurd h (by simp)
  | some d0 =>
  cases hp : rowGet row "part_of_speech" with
  | none => rw [hw, hd, hp] at h; exact absurd h (by simp)
  | some p0 =>
  cases he : rowGet row "example" with
  | none => rw [hw, hd, hp, he] at h; exact absurd h (by simp)
  | some e0 =>
  rw [hw, hd, hp, he] at h
  dsimp only at h
  by_cases hskip : pyStrip (pyLower w0) = "" ∨ pyStrip d0 = "" ∨ pyStrip p0 = ""
  · rw [if_pos hskip] at h
    simp only [Option.some.injEq, Prod.mk.injEq] at h
    obtain ⟨h1, _, _⟩ := h
    rw [← h1]
    exact hE
  · rw [if_neg hskip] at h
    by_cases hnew : (alookup ((alookup (setdefaultLang st (pyLower language)) (pyLower language)).getD [])
        (pyStrip (pyLower w0))).isNone
    · rw [if_pos hnew] at h
      simp only [Option.some.injEq, Prod.mk.injEq] at h
      obtain ⟨h1, _, _⟩ := h
      rw [← h1]
      by_cases hL : L = pyLower language
      · subst hL
        have hb : alookup
            (aset (setdefaultLang st (pyLower language))
              (pyLower language)
              (aset ((alookup (setdefaultLang st (pyLower language)) (pyLower language)).getD [])
                (pyStrip (pyLower w0)) ⟨pyStrip d0, pyStrip p0, pyStrip e0⟩))
            (pyLower language)
            = some (aset ((alookup (setdefaultLang st (pyLower language)) (pyLower language)).getD [])
                (pyStrip (pyLower w0)) ⟨pyStrip d0, pyStrip p0, pyStrip e0⟩) :=
          alookup_aset_self ..
        rw [entryAt_eq_bucket_lookup, hb, Option.getD_some]
        have hEb : alookup
            ((alookup (setdefaultLang st (pyLower language)) (pyLower language)).getD []) W
            = some E := by
          rw [← entryAt_eq_bucket_lookup, entryAt_setdefaultLang]
          exact hE
        have hWne : W ≠ pyStrip (pyLower w0) := by
          intro hcontra
          rw [← hcontra] at hnew
          rw [hEb] at hnew
          simp at hnew
        rw [alookup_aset_ne _ _ hWne, hEb]
      · unfold entryAt
        rw [alookup_aset_ne _ _ hL, ← entryAt, entryAt_setdefaultLang]
        exact hE
    · rw [if_neg hnew] at h
      simp only [Option.some.injEq, Prod.mk.injEq] at h
      obtain ⟨h1, _, _⟩ := h
      rw [← h1, entryAt_setdefaultLang]
      exact hE

theorem importLoop_preserves {language : String} :
    ∀ (rows : List CsvRow) (st : Dict) (a s : Nat) (L W : String) (E : Entry),
      entryAt st L W = some E →
      entryAt (importLoop language rows (st, a, s)).1.1 L W = some E := by
  intro rows
  induction rows with
  | nil =>
      intro st a s L W E hE
      simpa [importLoop] using hE
  | cons row rest ih =>
      intro st a s L W E hE
      unfold importLoop
      cases hstep : import_row language (st, a, s) row with
      | none => simpa using hE
      | some acc1 =>
          obtain ⟨st1, a1, s1⟩ := acc1
          exact ih st1 a1 s1 L W E (import_row_preserves hstep hE)

/-! Claim theorems -/

/-- Claim C1 (corrected): calculate_confidence computes the claimed min/cap
formulas, but branch selection uses raw Python truthiness of the two
strings, not emptiness after trimming: a whitespace-only string selects the
same branch as a non-empty one. The amended statement equates the source
function with confidence_amended_spec, whose branches test raw
non-emptiness. -/
theorem C1_theorem (m : ConfidenceModule) (d e : String) :
    calculate_confidence m (some d) (some e) = confidence_amended_spec m d e := by
  unfold calculate_confidence confidence_amended_spec
  by_cases hd : d = "" <;> by_cases he : e = "" <;> simp [hd, he]

/-- Claim C1 counterexample: on definition = a single space and example =
two words the source returns 4.0 (high branch: 2 words times 2.0) while the
claimed trim-based branching yields 3.0 (partial branch: 2 words times
1.5). -/
theorem C1_counterexample :
    calculate_confidence defaultConfidenceModule (some " ") (some "a b") = 4 ∧
    confidence_claim_spec defaultConfidenceModule " " "a b" = 3 ∧
    (4 : ℚ) ≠ 3 := by
  have h1 : pyWordCount " " = 0 := by decide
  have h2 : pyWordCount "a b" = 2 := by decide
  have h3 : (" " : String) ≠ "" := by decide
  have h4 : ("a b" : String) ≠ "" := by decide
  have h5 : pyStrip " " = "" := by decide
  have h6 : pyStrip "a b" = "a b" := by decide
  refine ⟨?_, ?_, by norm_num⟩
  · unfold calculate_confidence
    simp only [Option.getD_some, h1, h2, h3, h4, ne_eq, not_false_iff, and_self, if_true,
      defaultConfidenceModule, pymin]
    norm_num
  · unfold confidence_claim_spec
    simp only [h5, h6, h2, h3, h4, ne_eq, defaultConfidenceModule, pymin]
    norm_num

/-- Claim C6 (corrected): save_data does NOT guard the backup copies with an
existence check — shutil.copy raises on a missing backing file, so a
missing backing file makes save return false (first conjunct of the amended
statement). The rest of the claim holds: any error is reported as a false
result without raising, and the in-memory dictionary and language data are
returned untouched so the caller may retry; when both files exist and both
writes succeed, the result is exactly the post-save validation outcome. -/
theorem C6_theorem (env : SaveEnv) (mem : Dict × LangData) :
    ((env.dictFileExists = false ∨ env.langFileExists = false) →
      (save_data env mem).1 = false) ∧
    (save_data env mem).2 = mem ∧
    (env.dictFileExists = true → env.langFileExists = true → env.writeDictOk = true →
      env.writeLangOk = true →
      (save_data env mem).1 = (env.validateDictOk && env.validateLangOk)) := by
  unfold save_data
  refine ⟨?_, rfl, ?_⟩
  · rintro (h | h) <;> simp [h]
  · intro h1 h2 h3 h4
    simp [h1, h2, h3, h4]

/-- Claim C6 witness: a concrete environment with a missing dictionary file
makes save fail; a fully healthy environment succeeds and memory is
retained. -/
theorem C6_witness :
    (save_data ⟨false, true, true, true, true, true⟩ ([("en", [])], [])).1 = false ∧
    (save_data ⟨true, true, true, true, true, true⟩ ([("en", [])], [])).2 = ([("en", [])], []) ∧
    (save_data ⟨true, true, true, true, true, true⟩ ([("en", [])], [])).1 = true := by
  refine ⟨(C6_theorem _ _).1 (Or.inl rfl), (C6_theorem _ _).2.1, ?_⟩
  have h := (C6_theorem ⟨true, true, true, true, true, true⟩ ([("en", [])], [])).2.2
    rfl rfl rfl rfl
  simpa using h

/-- Claim C6 counterexample: with the dictionary backing file missing and
everything else healthy, save_data returns false — refuting that a missing
backing file does not make save fail. -/
theorem C6_counterexample :
    (save_data
        { dictFileExists := false, langFileExists := true, writeDictOk := true,
          writeLangOk := true, validateDictOk := true, validateLangOk := true }
        ([], [])).1 = false := by
  decide

/-- Claim C7 (corrected): load_data never fails the process, and with both
files well-formed it loads both structures; but the single try/except wraps
both reads, so on a missing or malformed file the except clause initialises
BOTH structures to empty — the other structure is not kept. -/
theorem C7_theorem (dictFile : parseOutcome Dict) (langFile : parseOutcome LangData) :
    (∀ d l, dictFile = some (some d) → langFile = some (some l) →
      load_data dictFile langFile = (d, l)) ∧
    ((dictFile = none ∨ dictFile = some none ∨ langFile = none ∨ langFile = some none) →
      load_data dictFile langFile = ([], [])) := by
  constructor
  · intro d l h1 h2
    rw [h1, h2]
    rfl
  · intro h
    rcases dictFile with _ | (_ | d) <;> rcases langFile with _ | (_ | l) <;>
      first
        | rfl
        | simp at h

/-- Claim C7 witness: both files well-formed loads both; a malformed
language file empties both structures. -/
theorem C7_witness :
    load_data (some (some [("en", [("hi", ⟨"d", "n", "e"⟩)])])) (some (some [("en", "English")]))
      = ([("en", [("hi", ⟨"d", "n", "e"⟩)])], [("en", "English")]) ∧
    load_data (some (some [("en", [("hi", ⟨"d", "n", "e"⟩)])])) (some none) = ([], []) := by
  exact ⟨(C7_theorem _ _).1 _ _ rfl rfl, (C7_theorem _ _).2 (Or.inr (Or.inr (Or.inr rfl)))⟩

/-- Claim C7 counterexample: the dictionary file is well-formed and
non-empty while the language file is malformed; load_data empties BOTH
structures instead of keeping the dictionary loaded from its own file. -/
theorem C7_counterexample :
    load_data (some (some [("en", [("hi", ⟨"d", "n", "e"⟩)])])) (some none) = ([], []) ∧
    ([("en", [("hi", (⟨"d", "n", "e"⟩ : Entry))])] : Dict) ≠ [] := by
  exact ⟨rfl, by simp⟩

/-- Claim C2 (corrected): word arguments ARE lower-cased and trimmed before
every lookup or mutation, so words differing only by case or surrounding
whitespace behave identically in every operation; but language codes are
normalised only by set_language, list_words and export_dictionary_to_csv
(and lowered without trimming by the import) — add_word, manual_add_word,
get_definition and remove_word use the language argument verbatim, so
buckets differing only by case can coexist (see the counterexample). -/
theorem C2_theorem :
    (∀ st w w' lang, pyNorm w = pyNorm w' →
      get_definition st w lang = get_definition st w' lang) ∧
    (∀ st w w' lang, pyNorm w = pyNorm w' →
      remove_word st w lang = remove_word st w' lang) ∧
    (∀ fetched st w w' lang odef opos oex, pyNorm w = pyNorm w' →
      add_word fetched st w lang odef opos oex = add_word fetched st w' lang odef opos oex) ∧
    (∀ st w w' lang d p e, pyNorm w = pyNorm w' →
      manual_add_word st w lang d p e = manual_add_word st w' lang d p e) ∧
    (∀ st lang lang', pyNorm lang = pyNorm lang' →
      list_words st lang = list_words st lang') ∧
    (∀ st lang lang', pyNorm lang = pyNorm lang' →
      export_dictionary_to_csv st lang = export_dictionary_to_csv st lang') := by
  refine ⟨?_, ?_, ?_, ?_, ?_, ?_⟩
  · intro st w w' lang h
    unfold get_definition
    rw [h]
  · intro st w w' lang h
    unfold remove_word
    rw [h]
  · intro fetched st w w' lang odef opos oex h
    unfold add_word
    rw [h]
  · intro st w w' lang d p e h
    unfold manual_add_word
    rw [h]
  · intro st lang lang' h
    unfold list_words
    rw [h]
  · intro st lang lang' h
    unfold export_dictionary_to_csv
    rw [h]

/-- Claim C2 witness: the lookup conjunct applied to the word written as
a capitalised form with trailing space versus a leading-space lower-case
form. -/
theorem C2_witness :
    get_definition [("en", [("apple", ⟨"d", "n", "e"⟩)])] "Apple " "en"
      = get_definition [("en", [("apple", ⟨"d", "n", "e"⟩)])] " apple" "en" := by
  exact C2_theorem.1 [("en", [("apple", ⟨"d", "n", "e"⟩)])] "Apple " " apple" "en" (by decide)

/-- Claim C2 counterexample: adding the same word under language "EN" and
then under "en" succeeds twice, leaving two language buckets that differ
only by case, and a lookup under "en" misses the entry stored under "EN" —
so language codes are not case-normalised before use. -/
theorem C2_counterexample :
    (manual_add_word [] "hi" "EN" "d" "n" "e").dict = [("EN", [("hi", ⟨"d", "n", "e"⟩)])] ∧
    get_definition [("EN", [("hi", ⟨"d", "n", "e"⟩)])] "hi" "en" = none ∧
    (manual_add_word [("EN", [("hi", ⟨"d", "n", "e"⟩)])] "hi" "en" "d" "n" "e").success = true ∧
    (manual_add_word [("EN", [("hi", ⟨"d", "n", "e"⟩)])] "hi" "en" "d" "n" "e").dict
      = [("EN", [("hi", ⟨"d", "n", "e"⟩)]), ("en", [("hi", ⟨"d", "n", "e"⟩)])] := by
  refine ⟨?_, ?_, ?_, ?_⟩ <;> decide

/-- Claim C3 (corrected): manual_add_word with an empty definition, part of
speech or example always fails, stores no entry, and calls neither
save_data nor the CSV export; but it does NOT leave the store exactly
unchanged — the language bucket is created (empty) before the field check,
so a previously absent language key remains as a new empty bucket. -/
theorem C3_theorem (st : Dict) (word lang d p e : String)
    (h : d = "" ∨ p = "" ∨ e = "") :
    (manual_add_word st word lang d p e).success = false ∧
    (∀ L W, entryAt (manual_add_word st word lang d p e).dict L W = entryAt st L W) ∧
    (manual_add_word st word lang d p e).saveCalled = false ∧
    (manual_add_word st word lang d p e).exportCalled = false := by
  unfold manual_add_word
  by_cases hw : pyNorm word = ""
  · simp [hw]
  · by_cases hdup :
      (alookup ((alookup (setdefaultLang st lang) lang).getD []) (pyNorm word)).isSome
    · simp [hw, hdup, entryAt_setdefaultLang]
    · simp [hw, hdup, h, entryAt_setdefaultLang]

/-- Claim C3 witness: a concrete call with an empty definition fails and
the stored entry for an existing word is untouched. -/
theorem C3_witness :
    (manual_add_word [("en", [("x", ⟨"d", "n", "e"⟩)])] "w" "en" "" "n" "ex").success = false ∧
    entryAt (manual_add_word [("en", [("x", ⟨"d", "n", "e"⟩)])] "w" "en" "" "n" "ex").dict "en" "x"
      = entryAt [("en", [("x", ⟨"d", "n", "e"⟩)])] "en" "x" := by
  have h := C3_theorem [("en", [("x", ⟨"d", "n", "e"⟩)])] "w" "en" "" "n" "ex" (Or.inl rfl)
  exact ⟨h.1, h.2.1 "en" "x"⟩

/-- Claim C3 counterexample: manual_add_word with an empty definition on an
empty store fails but leaves behind a new empty bucket for the previously
absent language, so the store is not exactly as it was before the call. -/
theorem C3_counterexample :
    (manual_add_word [] "w" "xx" "" "n" "e").success = false ∧
    (manual_add_word [] "w" "xx" "" "n" "e").dict = [("xx", [])] ∧
    [("xx", ([] : Bucket))] ≠ ([] : Dict) := by
  refine ⟨?_, ?_, ?_⟩ <;> decide

/-- Claim C4 (corrected): when add_word is called for a fresh, non-empty
word without all three fields supplied and the entry fetcher returns
nothing, it fails with the manual-entry-required message, adds no entry,
and calls neither save_data nor the CSV export (so no CSV file is created
if none existed); but the store is NOT fully unchanged — the language
bucket is created before the fetch, so a previously absent language key
remains as a new empty bucket. -/
theorem C4_theorem (st : Dict) (word lang : String) (odef opos oex : Option String)
    (hw : pyNorm word ≠ "")
    (hfresh : entryAt st lang (pyNorm word) = none)
    (hmiss : (pyTruthy odef && pyTruthy opos && pyTruthy oex) = false) :
    add_word none st word lang odef opos oex =
      ⟨false, "Definição e exemplo não encontrados na API. Por favor, forneça manualmente.",
        setdefaultLang st lang, true, false, false⟩ ∧
    (∀ L W, entryAt (setdefaultLang st lang) L W = entryAt st L W) := by
  have hbridge :
      alookup ((alookup (setdefaultLang st lang) lang).getD []) (pyNorm word)
        = entryAt st lang (pyNorm word) := by
    rw [← entryAt_eq_bucket_lookup, entryAt_setdefaultLang]
  constructor
  · unfold add_word
    simp [hw, hbridge, hfresh, hmiss]
  · intro L W
    exact entryAt_setdefaultLang st lang L W

/-- Claim C4 witness: the failure scenario of the spec — add_word("qwerty",
"en") on an empty store with a fetch source returning nothing. -/
theorem C4_witness :
    add_word none [] "qwerty" "en" none none none =
      ⟨false, "Definição e exemplo não encontrados na API. Por favor, forneça manualmente.",
        setdefaultLang [] "en", true, false, false⟩ ∧
    entryAt (setdefaultLang [] "en") "en" "qwerty" = entryAt [] "en" "qwerty" := by
  have h := C4_theorem [] "qwerty" "en" none none none (by decide) (by decide) (by decide)
  exact ⟨h.1, h.2 "en" "qwerty"⟩

/-- Claim C4 counterexample: the same failing call on an empty store leaves
a new empty "en" bucket in memory, refuting that no new language bucket is
created. -/
theorem C4_counterexample :
    (add_word none [] "qwerty" "en" none none none).success = false ∧
    (add_word none [] "qwerty" "en" none none none).dict = [("en", [])] ∧
    [("en", ([] : Bucket))] ≠ ([] : Dict) := by
  refine ⟨?_, ?_, ?_⟩ <;> decide

/-- Claim C9 (confirmed): when the (normalised, non-empty) word is already
present in the given language bucket, add_word returns the conflict failure
with the store returned exactly as it was, without consulting the entry
fetcher and without calling save_data or the CSV export — so both backing
files and the mirror are untouched. -/
theorem C9_theorem (fetched : Option Entry) (st : Dict) (word lang : String)
    (odef opos oex : Option String) (E : Entry)
    (hw : pyNorm word ≠ "") (hpres : entryAt st lang (pyNorm word) = some E) :
    add_word fetched st word lang odef opos oex =
      ⟨false, "Palavra já existe no dicionário.", st, false, false, false⟩ := by
  have hlang : (alookup st lang).isSome := by
    cases hl : alookup st lang with
    | none => rw [entryAt, hl] at hpres; simp at hpres
    | some b => simp
  have hsd : setdefaultLang st lang = st := by
    unfold setdefaultLang
    cases hl : alookup st lang with
    | none => rw [hl] at hlang; simp at hlang
    | some b => simp [hl]
  have hbucket : alookup ((alookup st lang).getD []) (pyNorm word) = some E := by
    rw [← entryAt_eq_bucket_lookup]
    exact hpres
  unfold add_word
  simp [hw, hsd, hbucket]

/-- Claim C9 witness: adding "Apple" (already stored as "apple") to "en"
returns the conflict failure without fetch, save or export, and the store
is returned unchanged, even with a fetcher that would have data. -/
theorem C9_witness :
    add_word (some ⟨"other", "noun", "o"⟩) [("en", [("apple", ⟨"d", "n", "e"⟩)])]
        "Apple" "en" none none none =
      ⟨false, "Palavra já existe no dicionário.",
        [("en", [("apple", ⟨"d", "n", "e"⟩)])], false, false, false⟩ := by
  exact C9_theorem (some ⟨"other", "noun", "o"⟩) [("en", [("apple", ⟨"d", "n", "e"⟩)])]
    "Apple" "en" none none none ⟨"d", "n", "e"⟩ (by decide) (by decide)

/-- Claim C8 (corrected): exporting a language bucket and importing the
produced file into an empty bucket reproduces exactly the same words and
field values — provided the bucket is in the normal form the manager itself
maintains: word keys non-empty, lower-cased and trimmed, definition and
part_of_speech non-empty and trim-invariant, and the example trim-invariant.
Without the normal-form proviso the round trip re-normalises on import (see
the counterexample), because import lower-cases and strips every field
while export writes the stored values verbatim. -/
theorem C8_theorem (language : String) (b : Bucket)
    (hlang : pyStrip (pyLower language) = pyLower language)
    (hnd : (b.map Prod.fst).Nodup)
    (hb : ∀ p ∈ b, p.1 ≠ "" ∧ pyStrip (pyLower p.1) = p.1 ∧
       pyStrip p.2.definition = p.2.definition ∧ p.2.definition ≠ "" ∧
       pyStrip p.2.part_of_speech = p.2.part_of_speech ∧ p.2.part_of_speech ≠ "" ∧
       pyStrip p.2.example_str = p.2.example_str) :
    export_dictionary_to_csv [(pyLower language, b)] language = some (export_rows b) ∧
    import_dictionary_from_csv [(pyLower language, [])] true (export_rows b) language =
      ⟨true, "Dicionário importado com sucesso. " ++ toString b.length ++
          " palavras adicionadas, " ++ toString (0 : Nat) ++ " palavras ignoradas.",
        [(pyLower language, b)], 1, 1⟩ := by
  constructor
  · unfold export_dictionary_to_csv pyNorm
    rw [hlang]
    simp [alookup]
  · have hloop := importLoop_roundtrip language b [] 0 0 (by simpa using hnd) hb
    rw [List.nil_append, Nat.zero_add] at hloop
    unfold import_dictionary_from_csv
    rw [dictReaderRows_export, hloop]
    simp

/-- Claim C8 witness: the round trip reproduces a one-word normal-form
bucket exactly. -/
theorem C8_witness :
    export_dictionary_to_csv [(pyLower "en", [("hello", ⟨"a", "n", "x y"⟩)])] "en"
      = some (export_rows [("hello", ⟨"a", "n", "x y"⟩)]) ∧
    import_dictionary_from_csv [(pyLower "en", [])] true
        (export_rows [("hello", ⟨"a", "n", "x y"⟩)]) "en" =
      ⟨true, "Dicionário importado com sucesso. " ++
          toString ([("hello", (⟨"a", "n", "x y"⟩ : Entry))] : Bucket).length ++
          " palavras adicionadas, " ++ toString (0 : Nat) ++ " palavras ignoradas.",
        [(pyLower "en", [("hello", ⟨"a", "n", "x y"⟩)])], 1, 1⟩ := by
  exact C8_theorem "en" [("hello", ⟨"a", "n", "x y"⟩)] (by decide) (by decide) (by decide)

/-- Claim C8 counterexample: a bucket whose stored word is "Hello" (not in
normalised form; reachable by loading a hand-edited backing file) exports
verbatim but imports as "hello", so the round trip does not reproduce the
same set of words even though definition and part_of_speech are non-empty. -/
theorem C8_counterexample :
    export_dictionary_to_csv [("en", [("Hello", ⟨"d", "n", "e"⟩)])] "en"
      = some [["word", "definition", "part_of_speech", "example"], ["Hello", "d", "n", "e"]] ∧
    (import_dictionary_from_csv [("en", [])] true
        [["word", "definition", "part_of_speech", "example"], ["Hello", "d", "n", "e"]] "en").dict
      = [("en", [("hello", ⟨"d", "n", "e"⟩)])] ∧
    [("en", [("hello", (⟨"d", "n", "e"⟩ : Entry))])]
      ≠ [("en", [("Hello", (⟨"d", "n", "e"⟩ : Entry))])] := by
  refine ⟨?_, ?_, ?_⟩ <;> decide

/-- Claim C10 (corrected): for a CSV file whose data rows bind each of the
four columns to a string (or lack the column entirely) and yield no usable
word/definition/part_of_speech after trimming, the import succeeds with 0
added and every data row counted as skipped, and the store is unchanged.
The original claim fails for files where a data row is shorter than a
header that names one of these columns: the DictReader fills the missing
slot with the restval None, row.get returns that None, .lower()/.strip()
raises, and the import returns an overall failure (see counterexample). -/
theorem C10_theorem (language : String) (st : Dict) (file : List (List String))
    (h : ∀ row ∈ dictReaderRows file,
      (rowGet row "word").isSome ∧ (rowGet row "definition").isSome ∧
      (rowGet row "part_of_speech").isSome ∧ (rowGet row "example").isSome ∧
      (pyStrip (pyLower ((rowGet row "word").getD "")) = "" ∨
       pyStrip ((rowGet row "definition").getD "") = "" ∨
       pyStrip ((rowGet row "part_of_speech").getD "") = "")) :
    import_dictionary_from_csv st true file language =
      ⟨true, "Dicionário importado com sucesso. " ++ toString (0 : Nat) ++
          " palavras adicionadas, " ++ toString (dictReaderRows file).length ++
          " palavras ignoradas.", st, 1, 1⟩ := by
  have hloop := importLoop_all_skipped language (dictReaderRows file) st 0 0 h
  rw [Nat.zero_add] at hloop
  unfold import_dictionary_from_csv
  rw [hloop]
  simp

/-- Claim C10 witness: a wrong-header file with one data row imports with
success, 0 added, 1 skipped, store unchanged. -/
theorem C10_witness :
    import_dictionary_from_csv [] true [["a", "b"], ["1", "2"]] "en" =
      ⟨true, "Dicionário importado com sucesso. " ++ toString (0 : Nat) ++
          " palavras adicionadas, " ++ toString (dictReaderRows [["a", "b"], ["1", "2"]]).length ++
          " palavras ignoradas.", [], 1, 1⟩ :=
  C10_theorem "en" [] [["a", "b"], ["1", "2"]] (by decide)

/-- Claim C10 counterexample: the file with header other,word and the single
short data row x binds the word column to the restval None; the import
raises internally and returns failure, not success — refuting the claim for
a readable CSV whose rows yield no usable values. -/
theorem C10_counterexample :
    (import_dictionary_from_csv [] true [["other", "word"], ["x"]] "en").success = false := by
  decide

/-- Claim C5 (confirmed): the import contract. First conjunct: for every
well-formed reader row (all four columns bound to strings) the loop body
never raises and skips the row exactly when the trimmed word, definition or
part_of_speech is empty or the normalised word already exists in the
language bucket; a skipped row leaves every stored entry unchanged (so
existing entries are never overwritten and the first occurrence of a
duplicate wins), an accepted row stores exactly the trimmed field values
and changes no other entry. Second conjunct: across a whole import call no
pre-existing entry is ever changed. Third conjunct: when the row loop
completes, the result is success with save_data called exactly once and the
CSV mirror regenerated exactly once (after all rows), and the message
reports the exact added and skipped counts. -/
theorem C5_theorem :
    (∀ (lang : String) (st : Dict) (added skipped : Nat) (row : CsvRow) (w0 d0 p0 e0 : String),
      rowGet row "word" = some w0 → rowGet row "definition" = some d0 →
      rowGet row "part_of_speech" = some p0 → rowGet row "example" = some e0 →
      ∃ st1 a1 s1,
        import_row lang (st, added, skipped) row = some (st1, a1, s1) ∧
        (if pyStrip (pyLower w0) = "" ∨ pyStrip d0 = "" ∨ pyStrip p0 = "" ∨
            (entryAt st (pyLower lang) (pyStrip (pyLower w0))).isSome = true then
          a1 = added ∧ s1 = skipped + 1 ∧ ∀ L W, entryAt st1 L W = entryAt st L W
        else
          a1 = added + 1 ∧ s1 = skipped ∧
          entryAt st1 (pyLower lang) (pyStrip (pyLower w0))
            = some ⟨pyStrip d0, pyStrip p0, pyStrip e0⟩ ∧
          ∀ L W, (L ≠ pyLower lang ∨ W ≠ pyStrip (pyLower w0)) →
            entryAt st1 L W = entryAt st L W)) ∧
    (∀ (lang : String) (st : Dict) (fileExists : Bool) (file : List (List String))
        (L W : String) (E : Entry), entryAt st L W = some E →
      entryAt (import_dictionary_from_csv st fileExists file lang).dict L W = some E) ∧
    (∀ (lang : String) (st : Dict) (file : List (List String)) (st1 : Dict) (a s : Nat),
      importLoop lang (dictReaderRows file) (st, 0, 0) = ((st1, a, s), true) →
      import_dictionary_from_csv st true file lang =
        ⟨true, "Dicionário importado com sucesso. " ++ toString a ++
            " palavras adicionadas, " ++ toString s ++ " palavras ignoradas.", st1, 1, 1⟩) := by
  refine ⟨?_, ?_, ?_⟩
  · intro lang st added skipped row w0 d0 p0 e0 hw hd hp he
    have hbridge :
        alookup ((alookup (setdefaultLang st (pyLower lang)) (pyLower lang)).getD [])
            (pyStrip (pyLower w0))
          = entryAt st (pyLower lang) (pyStrip (pyLower w0)) := by
      rw [← entryAt_eq_bucket_lookup, entryAt_setdefaultLang]
    unfold import_row
    rw [hw, hd, hp, he]
    dsimp only
    by_cases hempty : pyStrip (pyLower w0) = "" ∨ pyStrip d0 = "" ∨ pyStrip p0 = ""
    · refine ⟨st, added, skipped + 1, ?_, ?_⟩
      · rw [if_pos hempty]
      · rw [if_pos (by tauto)]
        exact ⟨rfl, rfl, fun L W => rfl⟩
    · rw [if_neg hempty]
      by_cases hdup : (entryAt st (pyLower lang) (pyStrip (pyLower w0))).isSome = true
      · obtain ⟨E, hE⟩ := Option.isSome_iff_exists.mp hdup
        have hcond :
            ¬ ((alookup ((alookup (setdefaultLang st (pyLower lang)) (pyLower lang)).getD [])
                (pyStrip (pyLower w0))).isNone = true) := by
          rw [hbridge, hE]
          simp
        refine ⟨setdefaultLang st (pyLower lang), added, skipped + 1, ?_, ?_⟩
        · rw [if_neg hcond]
        · rw [if_pos (Or.inr (Or.inr (Or.inr hdup)))]
          exact ⟨rfl, rfl, fun L W => entryAt_setdefaultLang st (pyLower lang) L W⟩
      · have hdupn : entryAt st (pyLower lang) (pyStrip (pyLower w0)) = none := by
          cases hcase : entryAt st (pyLower lang) (pyStrip (pyLower w0)) with
          | none => rfl
          | some E => rw [hcase] at hdup; simp at hdup
        have hbnone :
            alookup ((alookup (setdefaultLang st (pyLower lang)) (pyLower lang)).getD [])
              (pyStrip (pyLower w0)) = none := by
          rw [hbridge, hdupn]
        have hcond :
            (alookup ((alookup (setdefaultLang st (pyLower lang)) (pyLower lang)).getD [])
              (pyStrip (pyLower w0))).isNone = true := by
          rw [hbnone]
          rfl
        refine ⟨aset (setdefaultLang st (pyLower lang)) (pyLower lang)
            (aset ((alookup (setdefaultLang st (pyLower lang)) (pyLower lang)).getD [])
              (pyStrip (pyLower w0))
              ⟨pyStrip d0, pyStrip p0, pyStrip e0⟩),
          added + 1, skipped, ?_, ?_⟩
        · rw [if_pos hcond]
        · rw [if_neg (by simp [hempty, hdup, hdupn])]
          refine ⟨rfl, rfl, ?_, ?_⟩
          · rw [entryAt_eq_bucket_lookup, alookup_aset_self, Option.getD_some,
              alookup_aset_self]
          · intro L W hLW
            by_cases hLK : L = pyLower lang
            · subst hLK
              have hWne : W ≠ pyStrip (pyLower w0) := by
                rcases hLW with hL | hW
                · exact absurd rfl hL
                · exact hW
              rw [entryAt_eq_bucket_lookup, alookup_aset_self, Option.getD_some,
                alookup_aset_ne _ _ hWne, ← entryAt_eq_bucket_lookup, entryAt_setdefaultLang]
            · have hsd := entryAt_setdefaultLang st (pyLower lang) L W
              unfold entryAt at hsd ⊢
              rw [alookup_aset_ne _ _ hLK]
              exact hsd
  · intro lang st fileExists file L W E hE
    unfold import_dictionary_from_csv
    cases fileExists with
    | false => simpa using hE
    | true =>
        have hpre := @importLoop_preserves lang (dictReaderRows file) st 0 0 L W E hE
        cases hres : importLoop lang (dictReaderRows file) (st, 0, 0) with
        | mk acc ok =>
            obtain ⟨st1, a, s⟩ := acc
            rw [hres] at hpre
            cases ok <;> simpa [hres] using hpre
  · intro lang st file st1 a s h
    unfold import_dictionary_from_csv
    rw [h]
    simp

/-- Claim C5 witness: the contract applied to concrete inputs — a fresh row
is accepted, a pre-existing entry survives an import whose file carries the
same word with different values, and a one-row import reports exact
counts with one save and one export. -/
theorem C5_witness :
    (∃ st1 a1 s1,
      import_row "en" ([], 0, 0) (makeRow csvHeader ["apple", "d", "n", "e"])
        = some (st1, a1, s1) ∧
      (if pyStrip (pyLower "apple") = "" ∨ pyStrip "d" = "" ∨ pyStrip "n" = "" ∨
          (entryAt [] (pyLower "en") (pyStrip (pyLower "apple"))).isSome = true then
        a1 = 0 ∧ s1 = 0 + 1 ∧ ∀ L W, entryAt st1 L W = entryAt [] L W
      else
        a1 = 0 + 1 ∧ s1 = 0 ∧
        entryAt st1 (pyLower "en") (pyStrip (pyLower "apple"))
          = some ⟨pyStrip "d", pyStrip "n", pyStrip "e"⟩ ∧
        ∀ L W, (L ≠ pyLower "en" ∨ W ≠ pyStrip (pyLower "apple")) →
          entryAt st1 L W = entryAt [] L W)) ∧
    entryAt (import_dictionary_from_csv [("en", [("x", ⟨"d", "n", "e"⟩)])] true
        [["word", "definition", "part_of_speech", "example"], ["x", "D2", "N2", "E2"]]
        "en").dict "en" "x" = some ⟨"d", "n", "e"⟩ ∧
    import_dictionary_from_csv [] true
        [["word", "definition", "part_of_speech", "example"], ["apple", "d", "n", "e"]] "en" =
      ⟨true, "Dicionário importado com sucesso. " ++ toString (1 : Nat) ++
          " palavras adicionadas, " ++ toString (0 : Nat) ++ " palavras ignoradas.",
        [("en", [("apple", ⟨"d", "n", "e"⟩)])], 1, 1⟩ := by
  refine ⟨?_, ?_, ?_⟩
  · exact C5_theorem.1 "en" [] 0 0 (makeRow csvHeader ["apple", "d", "n", "e"])
      "apple" "d" "n" "e" rfl rfl rfl rfl
  · exact C5_theorem.2.1 "en" [("en", [("x", ⟨"d", "n", "e"⟩)])] true
      [["word", "definition", "part_of_speech", "example"], ["x", "D2", "N2", "E2"]]
      "en" "x" ⟨"d", "n", "e"⟩ (by decide)
  · exact C5_theorem.2.2 "en" []
      [["word", "definition", "part_of_speech", "example"], ["apple", "d", "n", "e"]]
      [("en", [("apple", ⟨"d", "n", "e"⟩)])] 1 0 (by decide)
